import Mathlib

/-!
Verification of the training helpers of the `zero` library
(`zero/training.py` and the optimizer wrapper of `zero/optim.py`).

Scores and loss values are embedded as rationals; a Python float that may be
non-finite is embedded as a rational together with a finiteness flag
(`math.isfinite`). The tracker's `patience` is a nullable non-negative
integer, following the constructor contract ("Allowed number of bad updates")
and the data model of the specification.
-/

namespace ZeroLib

/-- The tri-state status of `ProgressTracker` (`_Status` in `training.py`). -/
inductive Status where
  | neutral
  | success
  | fail
deriving DecidableEq, Repr

/-- The state of a `ProgressTracker` instance: the fields set by
`ProgressTracker.__init__` in `training.py`. -/
structure ProgressTracker where
  patience : Option Nat
  min_delta : Rat
  best_score : Option Rat
  status : Status
  bad_counter : Nat
deriving DecidableEq, Repr

/-- `ProgressTracker(patience, min_delta)`: constructor from `training.py`. -/
def ProgressTracker.init (patience : Option Nat) (min_delta : Rat) : ProgressTracker :=
  { patience := patience
    min_delta := min_delta
    best_score := none
    status := Status.neutral
    bad_counter := 0 }

/-- The `success` property: the tracker is in the 'success' state. -/
def ProgressTracker.success (t : ProgressTracker) : Bool :=
  t.status = Status.success

/-- The `fail` property: the tracker is in the 'fail' state. -/
def ProgressTracker.fail (t : ProgressTracker) : Bool :=
  t.status = Status.fail

/-- `ProgressTracker._set_success` from `training.py`. -/
def ProgressTracker.set_success (t : ProgressTracker) (score : Rat) : ProgressTracker :=
  { t with best_score := some score, status := Status.success, bad_counter := 0 }

/-- `ProgressTracker.update` from `training.py`. -/
def ProgressTracker.update (t : ProgressTracker) (score : Rat) : ProgressTracker :=
  match t.best_score with
  | none => t.set_success score
  | some best =>
    if score > best + t.min_delta then
      t.set_success score
    else
      let bad := t.bad_counter + 1
      { t with
        bad_counter := bad
        status :=
          match t.patience with
          | some p => if bad > p then Status.fail else Status.neutral
          | none => Status.neutral }

/-- `ProgressTracker.forget_bad_updates` from `training.py`. -/
def ProgressTracker.forget_bad_updates (t : ProgressTracker) : ProgressTracker :=
  { t with bad_counter := 0, status := Status.neutral }

/-- `ProgressTracker.reset` from `training.py`: `forget_bad_updates` plus
clearing the best score. -/
def ProgressTracker.reset (t : ProgressTracker) : ProgressTracker :=
  { t.forget_bad_updates with best_score := none }

/-- An `update` call is improving when the best score is unset or the new
score exceeds it by more than `min_delta` (the branch of `update` that calls
`_set_success`). -/
def improves (t : ProgressTracker) (s : Rat) : Bool :=
  match t.best_score with
  | none => true
  | some best => s > best + t.min_delta

/-- The operations a client can perform on a tracker after construction. -/
inductive Op where
  | update (score : Rat)
  | forget_bad_updates
  | reset
deriving DecidableEq, Repr

/-- Apply one tracker operation. -/
def applyOp (t : ProgressTracker) : Op → ProgressTracker
  | Op.update s => t.update s
  | Op.forget_bad_updates => t.forget_bad_updates
  | Op.reset => t.reset

/-- Run a sequence of tracker operations. -/
def runOps (t : ProgressTracker) (ops : List Op) : ProgressTracker :=
  ops.foldl applyOp t

/-- The number of consecutive non-improving updates at the end of an
operation sequence, counted since the last improving update (success) or the
last `forget_bad_updates`/`reset`, starting from the count `n`. -/
def badStreakAux : ProgressTracker → Nat → List Op → Nat
  | _, n, [] => n
  | t, n, Op.update s :: ops =>
      badStreakAux (t.update s) (if improves t s then 0 else n + 1) ops
  | t, _, Op.forget_bad_updates :: ops => badStreakAux t.forget_bad_updates 0 ops
  | t, _, Op.reset :: ops => badStreakAux t.reset 0 ops

/-- The number of consecutive non-improving updates at the end of an
operation sequence run from state `t`. -/
def badStreak (t : ProgressTracker) (ops : List Op) : Nat :=
  badStreakAux t 0 ops

/-- The documented invariant of the tracker: the 'fail' state can hold only
when `patience` is set and `bad_counter` strictly exceeds it. -/
def trackerInvariant (t : ProgressTracker) : Prop :=
  t.status = Status.fail →
    match t.patience with
    | some p => t.bad_counter > p
    | none => False

instance (t : ProgressTracker) : Decidable (trackerInvariant t) := by
  unfold trackerInvariant
  cases t.patience <;> exact inferInstance

/- ### Basic lemmas about `update` -/

theorem update_bad_counter (t : ProgressTracker) (s : Rat) :
    (t.update s).bad_counter = if improves t s then 0 else t.bad_counter + 1 := by
  unfold ProgressTracker.update improves
  cases t.best_score with
  | none => simp [ProgressTracker.set_success]
  | some best =>
    by_cases h : s > best + t.min_delta <;>
      simp [h, ProgressTracker.set_success]

theorem update_best_score (t : ProgressTracker) (s : Rat) :
    (t.update s).best_score = if improves t s then some s else t.best_score := by
  unfold ProgressTracker.update improves
  cases t.best_score with
  | none => simp [ProgressTracker.set_success]
  | some best =>
    by_cases h : s > best + t.min_delta <;>
      simp [h, ProgressTracker.set_success]

theorem update_patience (t : ProgressTracker) (s : Rat) :
    (t.update s).patience = t.patience := by
  unfold ProgressTracker.update
  cases t.best_score with
  | none => simp [ProgressTracker.set_success]
  | some best =>
    by_cases h : s > best + t.min_delta <;>
      simp [h, ProgressTracker.set_success]

theorem update_min_delta (t : ProgressTracker) (s : Rat) :
    (t.update s).min_delta = t.min_delta := by
  unfold ProgressTracker.update
  cases t.best_score with
  | none => simp [ProgressTracker.set_success]
  | some best =>
    by_cases h : s > best + t.min_delta <;>
      simp [h, ProgressTracker.set_success]

theorem update_status_of_patience_some (t : ProgressTracker) (s : Rat) (p : Nat)
    (hp : t.patience = some p) :
    (t.update s).status =
      if improves t s then Status.success
      else if t.bad_counter + 1 > p then Status.fail else Status.neutral := by
  unfold ProgressTracker.update improves
  cases t.best_score with
  | none => simp [ProgressTracker.set_success]
  | some best =>
    by_cases h : s > best + t.min_delta <;>
      simp [h, ProgressTracker.set_success, hp]

theorem update_status_of_patience_none (t : ProgressTracker) (s : Rat)
    (hp : t.patience = none) :
    (t.update s).status = Status.success ∨ (t.update s).status = Status.neutral := by
  unfold ProgressTracker.update
  cases t.best_score with
  | none => simp [ProgressTracker.set_success]
  | some best =>
    by_cases h : s > best + t.min_delta <;>
      simp [h, ProgressTracker.set_success, hp]

/- ### Lemmas about operation sequences -/

theorem runOps_cons (t : ProgressTracker) (op : Op) (ops : List Op) :
    runOps t (op :: ops) = runOps (applyOp t op) ops := rfl

theorem runOps_append (t : ProgressTracker) (ops₁ ops₂ : List Op) :
    runOps t (ops₁ ++ ops₂) = runOps (runOps t ops₁) ops₂ :=
  List.foldl_append applyOp t ops₁ ops₂

theorem applyOp_patience (t : ProgressTracker) (op : Op) :
    (applyOp t op).patience = t.patience := by
  cases op with
  | update s => exact update_patience t s
  | forget_bad_updates => rfl
  | reset => rfl

theorem runOps_patience (t : ProgressTracker) (ops : List Op) :
    (runOps t ops).patience = t.patience := by
  induction ops generalizing t with
  | nil => rfl
  | cons op ops ih =>
    rw [runOps_cons, ih, applyOp_patience]

/-- The streak counter computed alongside the run agrees with `bad_counter`
whenever it starts in agreement. -/
theorem badStreakAux_eq_bad_counter (ops : List Op) :
    ∀ (t : ProgressTracker) (n : Nat), t.bad_counter = n →
      badStreakAux t n ops = (runOps t ops).bad_counter := by
  induction ops with
  | nil =>
    intro t n hn
    simpa [badStreakAux, runOps] using hn.symm
  | cons op ops ih =>
    intro t n hn
    cases op with
    | update s =>
      rw [runOps_cons]
      show badStreakAux (t.update s) (if improves t s then 0 else n + 1) ops = _
      apply ih
      rw [update_bad_counter, hn]
    | forget_bad_updates =>
      rw [runOps_cons]
      exact ih t.forget_bad_updates 0 rfl
    | reset =>
      rw [runOps_cons]
      exact ih t.reset 0 rfl

theorem badStreak_eq_bad_counter (t : ProgressTracker) (ops : List Op)
    (h : t.bad_counter = 0) :
    badStreak t ops = (runOps t ops).bad_counter :=
  badStreakAux_eq_bad_counter ops t 0 h

/-- With `patience = some p`, right after any `update` the tracker fails
exactly when `bad_counter` strictly exceeds `p`. -/
theorem update_fail_iff (t : ProgressTracker) (s : Rat) (p : Nat)
    (hp : t.patience = some p) :
    (t.update s).fail = true ↔ (t.update s).bad_counter > p := by
  rw [ProgressTracker.fail, update_status_of_patience_some t s p hp, update_bad_counter]
  by_cases hi : improves t s
  · simp [hi]
  · by_cases hb : t.bad_counter + 1 > p <;> simp [hi, hb]

/-- Trackers whose `patience` is `None` never reach the 'fail' state. -/
theorem runOps_never_fail_of_patience_none (ops : List Op) :
    ∀ t : ProgressTracker, t.patience = none → t.fail = false →
      (runOps t ops).fail = false := by
  induction ops with
  | nil => intro t _ hf; simpa [runOps] using hf
  | cons op ops ih =>
    intro t hp hf
    rw [runOps_cons]
    apply ih
    · rw [applyOp_patience]; exact hp
    · cases op with
      | update s =>
        rcases update_status_of_patience_none t s hp with h | h <;>
          simp [applyOp, ProgressTracker.fail, h]
      | forget_bad_updates =>
        simp [applyOp, ProgressTracker.fail, ProgressTracker.forget_bad_updates]
      | reset =>
        simp [applyOp, ProgressTracker.fail, ProgressTracker.reset,
          ProgressTracker.forget_bad_updates]

/- ### Claim theorems about `ProgressTracker` -/

/-- C1: for a tracker constructed with `patience = some p`, after a call to
`update` the tracker is in the 'fail' state exactly when the number of
consecutive non-improving updates since the last success (or since the last
`forget_bad_updates`/`reset`) strictly exceeds `p`; a tracker constructed
with `patience = none` is never in the 'fail' state. -/
theorem claim_C1_fail_iff_streak (p : Nat) (d : Rat) (ops : List Op) (s : Rat) :
    ((runOps (ProgressTracker.init (some p) d) (ops ++ [Op.update s])).fail = true ↔
      badStreak (ProgressTracker.init (some p) d) (ops ++ [Op.update s]) > p) ∧
    ∀ (d' : Rat) (ops' : List Op),
      (runOps (ProgressTracker.init none d') ops').fail = false := by
  constructor
  · have hrun : runOps (ProgressTracker.init (some p) d) (ops ++ [Op.update s]) =
        (runOps (ProgressTracker.init (some p) d) ops).update s := by
      rw [runOps_append]; rfl
    have hpat : (runOps (ProgressTracker.init (some p) d) ops).patience = some p :=
      runOps_patience _ _
    have hstreak : badStreak (ProgressTracker.init (some p) d) (ops ++ [Op.update s]) =
        (runOps (ProgressTracker.init (some p) d) (ops ++ [Op.update s])).bad_counter :=
      badStreak_eq_bad_counter _ _ rfl
    rw [hstreak, hrun]
    exact update_fail_iff _ s p hpat
  · intro d' ops'
    exact runOps_never_fail_of_patience_none ops' _ rfl rfl

/-- C4: construction, `update`, `forget_bad_updates` and `reset` all preserve
the invariant that the tracker is in the 'fail' state only if `patience` is
set and `bad_counter` strictly exceeds it. -/
theorem claim_C4_invariant_preserved :
    (∀ (p : Option Nat) (d : Rat), trackerInvariant (ProgressTracker.init p d)) ∧
    (∀ (t : ProgressTracker) (s : Rat),
      trackerInvariant t → trackerInvariant (t.update s)) ∧
    (∀ t : ProgressTracker, trackerInvariant t → trackerInvariant t.forget_bad_updates) ∧
    (∀ t : ProgressTracker, trackerInvariant t → trackerInvariant t.reset) := by
  refine ⟨?_, ?_, ?_, ?_⟩
  · intro p d h
    simp [ProgressTracker.init] at h
  · intro t s _
    unfold trackerInvariant
    intro hf
    rw [update_patience]
    cases hp : t.patience with
    | none =>
      rcases update_status_of_patience_none t s hp with h | h <;> rw [h] at hf <;>
        exact absurd hf (by decide)
    | some p =>
      show (t.update s).bad_counter > p
      exact (update_fail_iff t s p hp).mp (by simp [ProgressTracker.fail, hf])
  · intro t _
    unfold trackerInvariant
    intro hf
    simp [ProgressTracker.forget_bad_updates] at hf
  · intro t _
    unfold trackerInvariant
    intro hf
    simp [ProgressTracker.reset, ProgressTracker.forget_bad_updates] at hf

/-- Witness for C4 at concrete inputs. -/
theorem claim_C4_witness :
    trackerInvariant ((ProgressTracker.init (some 1) 0).update 3) ∧
    trackerInvariant (ProgressTracker.init (some 1) 0).forget_bad_updates ∧
    trackerInvariant (ProgressTracker.init (some 1) 0).reset :=
  ⟨claim_C4_invariant_preserved.2.1 (ProgressTracker.init (some 1) 0) 3
     (fun h => by simp [ProgressTracker.init] at h),
   claim_C4_invariant_preserved.2.2.1 (ProgressTracker.init (some 1) 0)
     (fun h => by simp [ProgressTracker.init] at h),
   claim_C4_invariant_preserved.2.2.2 (ProgressTracker.init (some 1) 0)
     (fun h => by simp [ProgressTracker.init] at h)⟩

/-- C5: when the best score is `b` and the new score improves on it by more
than `min_delta`, `update` resets `bad_counter` to zero, moves to the
'success' state, and records the new score as the best score. -/
theorem claim_C5_improvement_resets (t : ProgressTracker) (b s : Rat)
    (hb : t.best_score = some b) (h : s - b > t.min_delta) :
    (t.update s).bad_counter = 0 ∧ (t.update s).success = true ∧
      (t.update s).best_score = some s := by
  have h' : s > b + t.min_delta := by linarith
  unfold ProgressTracker.update
  rw [hb]
  simp [h', ProgressTracker.set_success, ProgressTracker.success]

/-- Witness for C5 at a concrete input. -/
theorem claim_C5_witness :
    (((ProgressTracker.init (some 1) 0).update 2).update 10).bad_counter = 0 ∧
    (((ProgressTracker.init (some 1) 0).update 2).update 10).success = true ∧
    (((ProgressTracker.init (some 1) 0).update 2).update 10).best_score = some 10 :=
  claim_C5_improvement_resets ((ProgressTracker.init (some 1) 0).update 2) 2 10
    (by norm_num [ProgressTracker.init, ProgressTracker.update, ProgressTracker.set_success])
    (by norm_num [ProgressTracker.init, ProgressTracker.update, ProgressTracker.set_success])

/-- C6: the first `update` on a freshly created or freshly reset tracker
always reports success and records the score as the best score. -/
theorem claim_C6_first_update_succeeds (p : Option Nat) (d : Rat) (s : Rat)
    (t : ProgressTracker) :
    (((ProgressTracker.init p d).update s).success = true ∧
      ((ProgressTracker.init p d).update s).best_score = some s) ∧
    ((t.reset.update s).success = true ∧ (t.reset.update s).best_score = some s) := by
  constructor <;>
    simp [ProgressTracker.init, ProgressTracker.update, ProgressTracker.reset,
      ProgressTracker.forget_bad_updates, ProgressTracker.set_success,
      ProgressTracker.success]

/-- C10: `forget_bad_updates` zeroes `bad_counter` and makes the status
neutral while leaving `best_score`, `patience` and `min_delta` unchanged;
`reset` additionally clears `best_score` and changes nothing else. -/
theorem claim_C10_forget_reset_frame (t : ProgressTracker) :
    (t.forget_bad_updates.bad_counter = 0 ∧
     t.forget_bad_updates.status = Status.neutral ∧
     t.forget_bad_updates.best_score = t.best_score ∧
     t.forget_bad_updates.patience = t.patience ∧
     t.forget_bad_updates.min_delta = t.min_delta) ∧
    (t.reset.bad_counter = 0 ∧
     t.reset.status = Status.neutral ∧
     t.reset.best_score = none ∧
     t.reset.patience = t.patience ∧
     t.reset.min_delta = t.min_delta) :=
  ⟨⟨rfl, rfl, rfl, rfl, rfl⟩, ⟨rfl, rfl, rfl, rfl, rfl⟩⟩

/- ### The `learn` training step -/

/-- A Python float as observed through `math.isfinite`: a value together
with a finiteness flag (`False` for `inf`, `-inf`, `nan`). -/
structure FloatVal where
  val : Rat
  finite : Bool
deriving DecidableEq, Repr

/-- The external collaborators used by `learn`: `step`, `loss_fn` (in its
plain and star-unpacked call forms), `Tensor.backward` (the gradients it
produces) and `Optimizer.step` (the parameter update from the gradients). -/
structure LearnEnv (B Out P G : Type) where
  stepFn : B → Out
  loss_fn : Out → FloatVal
  loss_fn_star : Out → FloatVal
  backward : FloatVal → G
  optStep : P → G → P

/-- The mutable state `learn` acts on: the model's training flag, the
model's gradients, the optimizer's parameters, and the warnings issued so
far (recorded by their loss values). -/
structure LearnState (P G : Type) where
  training : Bool
  grads : Option G
  params : P
  warned : List Rat
deriving Repr

/-- `learn` from `training.py`: switch the model to training mode, zero the
gradients, run `step` and `loss_fn`; when the loss value is finite run
`backward` and the optimizer step, otherwise issue a `RuntimeWarning`;
return `(loss_value, step_output)` with the updated state. -/
def learn {B Out P G : Type} (env : LearnEnv B Out P G) (st : LearnState P G)
    (batch : B) (star : Bool) : (FloatVal × Out) × LearnState P G :=
  let st1 : LearnState P G := { st with training := true }
  let st2 : LearnState P G := { st1 with grads := none }
  let out := env.stepFn batch
  let loss := if star then env.loss_fn_star out else env.loss_fn out
  let loss_value := loss
  if loss_value.finite then
    let st3 : LearnState P G := { st2 with grads := some (env.backward loss) }
    let st4 : LearnState P G :=
      { st3 with params := env.optStep st3.params (env.backward loss) }
    ((loss_value, out), st4)
  else
    let st3 : LearnState P G := { st2 with warned := st2.warned ++ [loss_value.val] }
    ((loss_value, out), st3)

/-- The loss value `learn` computes for a given environment, batch and
`star` flag. -/
def learnLoss {B Out P G : Type} (env : LearnEnv B Out P G) (batch : B)
    (star : Bool) : FloatVal :=
  if star then env.loss_fn_star (env.stepFn batch)
  else env.loss_fn (env.stepFn batch)

/-- C2: when the loss value is not finite, `learn` performs neither the
backward pass nor the optimizer step and issues a warning; when it is
finite, both are performed and no warning is issued. -/
theorem claim_C2_nonfinite_guard {B Out P G : Type} (env : LearnEnv B Out P G)
    (st : LearnState P G) (batch : B) (star : Bool) :
    ((learnLoss env batch star).finite = false →
      (learn env st batch star).2.params = st.params ∧
      (learn env st batch star).2.grads = none ∧
      (learn env st batch star).2.warned =
        st.warned ++ [(learnLoss env batch star).val]) ∧
    ((learnLoss env batch star).finite = true →
      (learn env st batch star).2.grads =
        some (env.backward (learnLoss env batch star)) ∧
      (learn env st batch star).2.params =
        env.optStep st.params (env.backward (learnLoss env batch star)) ∧
      (learn env st batch star).2.warned = st.warned) := by
  constructor
  · intro h
    simp only [learn, learnLoss] at h ⊢
    cases star <;> simp_all
  · intro h
    simp only [learn, learnLoss] at h ⊢
    cases star <;> simp_all

/-- A concrete `learn` environment whose loss is finite. -/
def envFinite : LearnEnv Unit Unit Nat Nat :=
  { stepFn := fun _ => ()
    loss_fn := fun _ => { val := 1, finite := true }
    loss_fn_star := fun _ => { val := 1, finite := true }
    backward := fun _ => 5
    optStep := fun p g => p + g }

/-- A concrete `learn` environment whose loss is not finite. -/
def envNonFinite : LearnEnv Unit Unit Nat Nat :=
  { stepFn := fun _ => ()
    loss_fn := fun _ => { val := 7, finite := false }
    loss_fn_star := fun _ => { val := 7, finite := false }
    backward := fun _ => 5
    optStep := fun p g => p + g }

/-- A concrete initial state for the `learn` witnesses. -/
def st0 : LearnState Nat Nat :=
  { training := false, grads := none, params := 2, warned := [] }

/-- Witness for C2 at concrete inputs, one per branch. -/
theorem claim_C2_witness :
    ((learn envNonFinite st0 () false).2.params = st0.params ∧
     (learn envNonFinite st0 () false).2.grads = none ∧
     (learn envNonFinite st0 () false).2.warned =
       st0.warned ++ [(learnLoss envNonFinite () false).val]) ∧
    ((learn envFinite st0 () false).2.grads =
       some (envFinite.backward (learnLoss envFinite () false)) ∧
     (learn envFinite st0 () false).2.params =
       envFinite.optStep st0.params (envFinite.backward (learnLoss envFinite () false)) ∧
     (learn envFinite st0 () false).2.warned = st0.warned) :=
  ⟨(claim_C2_nonfinite_guard envNonFinite st0 () false).1 rfl,
   (claim_C2_nonfinite_guard envFinite st0 () false).2 rfl⟩

/-- C8: `learn` always returns the pair `(loss_value, step_output)`,
whether or not the loss value is finite. -/
theorem claim_C8_returns_loss_and_output {B Out P G : Type}
    (env : LearnEnv B Out P G) (st : LearnState P G) (batch : B) (star : Bool) :
    (learn env st batch star).1 = (learnLoss env batch star, env.stepFn batch) := by
  simp only [learn, learnLoss]
  split <;> split <;> rfl

/- ### The `evaluate` context manager -/

/-- The state `evaluate` acts on: the training flag of every model in the
program, and the global gradient-enabled flag. -/
structure EvalWorld where
  modes : List Bool
  gradEnabled : Bool
deriving DecidableEq, Repr

/-- `x.eval()` for each selected model index: clear its training flag. -/
def setEvalModes (modes : List Bool) (sel : List Nat) : List Bool :=
  sel.foldl (fun ms i => ms.set i false) modes

/-- A run of the `with evaluate(*models): body` block from `training.py`:
`sel` lists the indices of the models passed; `body` runs the block and
reports the exception it raises, if any. The `assert models` on entry is a
`none` result; otherwise each model is switched to eval mode, `no_grad` is
entered (saving the previous gradient mode), the body runs, and the
`finally` clause restores the saved gradient mode on both exit paths,
propagating the body's exception. -/
def evaluateRun {E : Type} (sel : List Nat)
    (body : EvalWorld → EvalWorld × Option E) (w : EvalWorld) :
    Option (EvalWorld × Option E) :=
  if sel.isEmpty then none
  else
    let w1 : EvalWorld := { w with modes := setEvalModes w.modes sel }
    let prev := w1.gradEnabled
    let w2 : EvalWorld := { w1 with gradEnabled := false }
    let res := body w2
    some ({ res.1 with gradEnabled := prev }, res.2)

/-- C7 counterexample: with one model that is in training mode before entry
and a body that exits normally without touching the state, the training
mode after exit is `false`, not the pre-entry `true`: the grad flag is
restored but the models' training/eval mode is not. -/
theorem claim_C7_counterexample :
    evaluateRun [0] (fun w => (w, (none : Option Unit)))
        { modes := [true], gradEnabled := true } =
      some ({ modes := [false], gradEnabled := true }, none) ∧
    ({ modes := [false], gradEnabled := true } : EvalWorld) ≠
      { modes := [true], gradEnabled := true } :=
  ⟨rfl, by decide⟩

/-- C7 (amended): on every exit path from `evaluate` — normal return or
exception — the global gradient-enabled flag is restored to its pre-entry
value and the body's exception, if any, is propagated; the models' training
mode is set to eval on entry and left as the body left it, not restored. -/
theorem claim_C7_grad_restored {E : Type} (sel : List Nat)
    (body : EvalWorld → EvalWorld × Option E) (w : EvalWorld) (h : sel ≠ []) :
    evaluateRun sel body w =
      some ({ (body { modes := setEvalModes w.modes sel, gradEnabled := false }).1
                with gradEnabled := w.gradEnabled },
            (body { modes := setEvalModes w.modes sel, gradEnabled := false }).2) := by
  have hne : sel.isEmpty = false := by
    cases sel with
    | nil => exact absurd rfl h
    | cons a l => rfl
  unfold evaluateRun
  rw [hne]
  rfl

/-- Witness for the amended C7: a body that raises; the exception is
propagated and the grad flag is restored to `true`. -/
theorem claim_C7_witness :
    evaluateRun [0] (fun w => (w, (some 3 : Option Nat)))
        { modes := [true], gradEnabled := true } =
      some ({ modes := [false], gradEnabled := true }, some 3) :=
  (claim_C7_grad_restored [0] (fun w => (w, (some 3 : Option Nat)))
      { modes := [true], gradEnabled := true } (by decide)).trans rfl

/-- C9: calling `evaluate` with zero models fails the `assert models` on
entry; with at least one model the context manager is entered and produces
a result. -/
theorem claim_C9_assert_nonempty :
    (∀ (E : Type) (body : EvalWorld → EvalWorld × Option E) (w : EvalWorld),
      evaluateRun ([] : List Nat) body w = none) ∧
    (∀ (E : Type) (sel : List Nat) (body : EvalWorld → EvalWorld × Option E)
      (w : EvalWorld), sel ≠ [] → (evaluateRun sel body w).isSome = true) := by
  constructor
  · intro E body w
    rfl
  · intro E sel body w h
    have hne : sel.isEmpty = false := by
      cases sel with
      | nil => exact absurd rfl h
      | cons a l => rfl
    unfold evaluateRun
    rw [hne]
    rfl

/-- Witness for C9 at concrete inputs. -/
theorem claim_C9_witness :
    evaluateRun ([] : List Nat) (fun w => (w, (none : Option Unit)))
        { modes := [true], gradEnabled := false } = none ∧
    (evaluateRun [0] (fun w => (w, (none : Option Unit)))
        { modes := [true], gradEnabled := false }).isSome = true :=
  ⟨claim_C9_assert_nonempty.1 Unit _ _,
   claim_C9_assert_nonempty.2 Unit [0] _ _ (by decide)⟩

/- ### The optimizer wrapper of `zero.optim` -/

/-- Modelled from the spec: the optimizer wrapper of `zero.optim` (the
module itself is not among the sources; only its test is). "Optimizer
wrapper: holds a reference to an underlying optimizer; on successful scope
exit calls its update; on exceptional exit, suppresses the update but
propagates the exception." `update` is the wrapped optimizer's parameter
update; `body` runs the `with`-block over the parameters and reports the
exception it raises, if any. -/
def zeroOptimizerScope {P E : Type} (update : P → P)
    (body : P → P × Option E) (params : P) : P × Option E :=
  let res := body params
  match res.2 with
  | none => (update res.1, none)
  | some e => (res.1, some e)

/-- C3: if the body of the `with`-block raises, the pending update is
suppressed (the parameters are unchanged) and the exception is re-raised
unchanged; if the body exits normally, the update is applied on exit. -/
theorem claim_C3_scope_exit {P E : Type} (update : P → P)
    (body : P → P × Option E) (params : P) :
    (∀ e : E, (body params).2 = some e → (body params).1 = params →
      zeroOptimizerScope update body params = (params, some e)) ∧
    ((body params).2 = none →
      zeroOptimizerScope update body params = (update (body params).1, none)) := by
  constructor
  · intro e h hp
    simp only [zeroOptimizerScope, h, hp]
  · intro h
    simp only [zeroOptimizerScope, h]

/-- Witness for C3 at concrete inputs, one per exit path. -/
theorem claim_C3_witness :
    zeroOptimizerScope (fun p => p + 1) (fun p => (p, some 9)) 4 = (4, some 9) ∧
    zeroOptimizerScope (fun p => p + 1) (fun p => (p, (none : Option Nat))) 4 =
      (5, none) :=
  ⟨(claim_C3_scope_exit (fun p => p + 1) (fun p => (p, some 9)) 4).1 9 rfl rfl,
   (claim_C3_scope_exit (fun p => p + 1) (fun p => (p, (none : Option Nat))) 4).2 rfl⟩

end ZeroLib
